import Mathlib

/-
Verification of the E2E-Framework repository (a Selenium page-object test
framework) against its natural-language specification.

The development shallowly embeds the relevant Python code:

* src/framework/config/config_manager.py  (ConfigManager)
* src/framework/core/base_page.py         (BasePage wait / interaction layer)
* src/framework/core/driver_factory.py    (DriverFactory)

Python dictionaries become insertion-ordered association lists, the process
environment becomes an association list of strings, the asynchronous DOM
becomes a time-indexed trace (one poll per time unit, mirroring the polling
loop of the external WebDriverWait), and fallible code returns Option/Except.
The external selenium WebDriverWait is modelled from its standard behaviour
at the repository call sites: the repo always calls
WebDriverWait(driver, timeout).until(cond) with no message argument, so the
TimeoutException it raises on expiry carries an empty message; the repo then
logs and re-raises that exception object unchanged.
-/

/-- A Python/YAML value as it occurs in the configuration dictionaries:
strings, booleans, integers, nested dictionaries (insertion-ordered
association lists, like Python dicts) and Python None. -/
inductive Value where
  | str (s : String)
  | bool (b : Bool)
  | int (n : Int)
  | dict (d : List (String × Value))
  | none

/-- First-match lookup in an insertion-ordered association list; models
Python dictionary lookup d[k] / the membership test k in d. -/
def lookupAssoc {A : Type} : List (String × A) → String → Option A
  | [], _ => Option.none
  | (k1, v1) :: rest, k => if k1 = k then Option.some v1 else lookupAssoc rest k

/-- Models Python dictionary assignment d[k] = v: replaces the value of an
existing key in place (keeping insertion order) or appends a new binding. -/
def setAssoc {A : Type} : List (String × A) → String → A → List (String × A)
  | [], k, v => [(k, v)]
  | (k1, v1) :: rest, k, v =>
    if k1 = k then (k, v) :: rest else (k1, v1) :: setAssoc rest k v

/-- Navigation of ConfigManager.get (config_manager.py lines 134-144):
walk the nested dictionaries along the key path; a missing key (KeyError)
or a non-dictionary intermediate value (TypeError) yields Option.none,
modelling the caught exception. -/
def lookupKeys : Value → List String → Option Value
  | v, [] => Option.some v
  | Value.dict d, k :: ks =>
    match lookupAssoc d k with
    | Option.some v => lookupKeys v ks
    | Option.none => Option.none
  | _, _ :: _ => Option.none

/-- Models Python key.split(on a dot), character by character:
splitDotAux cs acc accumulates the current segment in reverse. -/
def splitDotAux : List Char → List Char → List String
  | [], acc => [String.mk acc.reverse]
  | c :: cs, acc =>
    if c = '.' then String.mk acc.reverse :: splitDotAux cs []
    else splitDotAux cs (c :: acc)

/-- Models key.split(on a dot) from ConfigManager.get / ConfigManager.set. -/
def splitKey (key : String) : List String := splitDotAux key.data []

/-- Models key.upper().replace(dot, underscore) from ConfigManager.get
line 129: upper-case every character, then turn dots into underscores
(a dot is unaffected by upper-casing, so a single character map suffices). -/
def toEnvKey (key : String) : String :=
  String.mk (key.data.map (fun c => if c = '.' then '_' else c.toUpper))

/-- The built-in defaults of ConfigManager._set_defaults
(config_manager.py lines 68-102), verbatim. -/
def defaultSections : List (String × List (String × Value)) :=
  [ ("browser",
      [ ("type", Value.str "chrome"),
        ("headless", Value.bool false),
        ("timeout", Value.int 10),
        ("page_load_timeout", Value.int 30) ]),
    ("app",
      [ ("url", Value.str "https://www.saucedemo.com"),
        ("env", Value.str "dev") ]),
    ("selenium",
      [ ("implicit_wait", Value.int 10),
        ("explicit_wait", Value.int 10),
        ("page_load_timeout", Value.int 30) ]),
    ("reporting",
      [ ("screenshots_on_failure", Value.bool true),
        ("video_recording", Value.bool false),
        ("allure_results_dir", Value.str "allure-results") ]),
    ("execution",
      [ ("parallel", Value.bool false),
        ("workers", Value.int 4),
        ("retry_failed", Value.bool true),
        ("max_retries", Value.int 2) ]),
    ("logging",
      [ ("level", Value.str "INFO"),
        ("file", Value.str "logs/test_execution.log"),
        ("console", Value.bool true) ]) ]

/-- Inner loop of ConfigManager._set_defaults (lines 108-111): add to a
loaded section every default key it does not already define; existing keys
are left untouched (the loaded config takes priority). -/
def mergeSection (sec vals : List (String × Value)) : List (String × Value) :=
  vals.foldl
    (fun acc kv => if (lookupAssoc acc kv.1).isSome then acc else acc ++ [kv])
    sec

/-- Outer loop of ConfigManager._set_defaults (lines 105-111): for every
default section, install it whole if absent, otherwise merge the missing
keys into the existing section.  A loaded top-level value that is not a
dictionary makes the Python code raise a TypeError on item assignment;
that crash is modelled as Option.none. -/
def mergeDefaults : List (String × Value) → List (String × List (String × Value)) → Option (List (String × Value))
  | cfg, [] => Option.some cfg
  | cfg, (s, vals) :: rest =>
    match lookupAssoc cfg s with
    | Option.none => mergeDefaults (cfg ++ [(s, Value.dict vals)]) rest
    | Option.some (Value.dict secd) =>
      mergeDefaults (setAssoc cfg s (Value.dict (mergeSection secd vals))) rest
    | Option.some _ => Option.none

/-- State of the ConfigManager singleton after initialisation: the merged
in-memory configuration dictionary and the process environment. -/
structure ConfigState where
  config : List (String × Value)
  env : List (String × String)

/-- ConfigManager.get (config_manager.py lines 113-144): the environment
variable (key upper-cased, dots to underscores) is consulted first and
returned verbatim as a raw string; otherwise the nested dictionary is
navigated along the dotted key; otherwise the caller-supplied default. -/
def ConfigManager.get (st : ConfigState) (key : String) (dflt : Value) : Value :=
  match lookupAssoc st.env (toEnvKey key) with
  | Option.some s => Value.str s
  | Option.none =>
    match lookupKeys (Value.dict st.config) (splitKey key) with
    | Option.some v => v
    | Option.none => dflt

/-- Recursion of ConfigManager.set (lines 154-164): walk all key segments
but the last, creating empty dictionaries for missing segments; descending
into a non-dictionary value makes the Python code raise, modelled as
Option.none; finally assign the last segment. -/
def setKeys : List (String × Value) → List String → Value → Option (List (String × Value))
  | d, [], _ => Option.some d
  | d, [k], v => Option.some (setAssoc d k v)
  | d, k :: k2 :: ks, v =>
    match lookupAssoc d k with
    | Option.none =>
      (setKeys [] (k2 :: ks) v).map (fun sub => setAssoc d k (Value.dict sub))
    | Option.some (Value.dict sub) =>
      (setKeys sub (k2 :: ks) v).map (fun sub2 => setAssoc d k (Value.dict sub2))
    | Option.some _ => Option.none

/-- ConfigManager.set (config_manager.py lines 146-165): writes into the
in-memory dictionary only; the environment is never touched. -/
def ConfigManager.set (st : ConfigState) (key : String) (v : Value) : Option ConfigState :=
  (setKeys st.config (splitKey key) v).map (fun c => { st with config := c })

/-- The headless convenience property (config_manager.py lines 204-207). -/
def ConfigManager.headless (st : ConfigState) : Value :=
  ConfigManager.get st "browser.headless" (Value.bool false)

/-- Python truthiness of a modelled value (bool(v)): empty strings, False,
zero, empty dictionaries and None are falsy. -/
def pythonTruthy : Value → Bool
  | Value.str s => !(s == "")
  | Value.bool b => b
  | Value.int n => !(n == 0)
  | Value.dict d => !d.isEmpty
  | Value.none => false

/-- An element handle returned by the driver, identified abstractly. -/
abbrev Element := Nat

/-- A selenium locator: a (strategy, value) pair such as (id, login-button),
base_page.py represents it as a tuple (By, locator_string). -/
structure Locator where
  strategy : String
  value : String

/-- Rendering of a locator inside a log message, as the Python f-string
interpolation of the tuple renders both components. -/
def locatorStr (l : Locator) : String :=
  "(" ++ l.strategy ++ ", " ++ l.value ++ ")"

/-- The line timeout = timeout or self.timeout that begins every wait-based
primitive of BasePage: Python or takes the default both when the per-call
argument is absent (None) and when it is 0, since 0 is falsy. -/
def effTimeout (timeout : Option Nat) (dflt : Nat) : Nat :=
  match timeout with
  | Option.none => dflt
  | Option.some n => if n = 0 then dflt else n

/-- Polling loop of the external WebDriverWait.until, discretised to one
poll per time unit: starting at time t with the given fuel, return the
first truthy value of the condition trace, Option.none if it stays falsy.
With bound T the condition is evaluated at times t, t+1, ..., t+T. -/
def pollFirst {A : Type} (trace : Nat → Option A) : Nat → Nat → Option A
  | t, 0 => trace t
  | t, Nat.succ fuel =>
    match trace t with
    | Option.some v => Option.some v
    | Option.none => pollFirst trace (t + 1) fuel

/-- The selenium TimeoutException, reduced to the payload the repository
could inspect: its message.  The repository always constructs
WebDriverWait(driver, timeout) without a message argument, so on expiry
the library raises a TimeoutException whose message is empty. -/
structure TimeoutException where
  msg : String

/-- WebDriverWait(driver, timeout).until(condition) as called throughout
base_page.py: poll the condition trace from time 0 for the timeout bound;
expiry raises the library TimeoutException with the default empty message. -/
def webDriverWaitUntil {A : Type} (trace : Nat → Option A) (timeout : Nat) :
    Except TimeoutException A :=
  match pollFirst trace 0 timeout with
  | Option.some v => Except.ok v
  | Option.none => Except.error { msg := "" }

/-- Outcome of a BasePage wait primitive: the returned value or the
re-raised TimeoutException, together with the loguru messages emitted. -/
structure PageResult (A : Type) where
  result : Except TimeoutException A
  log : List String

/-- BasePage.wait_for_element (base_page.py lines 64-89): wait for the
element to be present and visible; on expiry log an error naming the
locator and the timeout, then re-raise the caught exception unchanged. -/
def waitForElement (visibleAt : Nat → Option Element) (loc : Locator)
    (timeout : Option Nat) (dflt : Nat) : PageResult Element :=
  let t := effTimeout timeout dflt
  match webDriverWaitUntil visibleAt t with
  | Except.ok e =>
    { result := Except.ok e,
      log := ["Waiting for element: " ++ locatorStr loc] }
  | Except.error ex =>
    { result := Except.error ex,
      log := ["Waiting for element: " ++ locatorStr loc,
              "Element not found within " ++ toString t ++ "s: " ++ locatorStr loc] }

/-- BasePage.wait_for_elements (lines 91-104): the underlying condition
returns the list of matching elements, and the polling loop treats an
empty list as falsy, so the wait succeeds at the first time the element
list is non-empty. -/
def waitForElements (elemsAt : Nat → List Element) (loc : Locator)
    (timeout : Option Nat) (dflt : Nat) : PageResult (List Element) :=
  let t := effTimeout timeout dflt
  match webDriverWaitUntil
      (fun n => if (elemsAt n).isEmpty then Option.none else Option.some (elemsAt n)) t with
  | Except.ok es =>
    { result := Except.ok es,
      log := ["Waiting for elements: " ++ locatorStr loc] }
  | Except.error ex =>
    { result := Except.error ex,
      log := ["Waiting for elements: " ++ locatorStr loc,
              "Elements not found within " ++ toString t ++ "s: " ++ locatorStr loc] }

/-- BasePage.wait_for_element_clickable (lines 106-119). -/
def waitForElementClickable (clickableAt : Nat → Option Element) (loc : Locator)
    (timeout : Option Nat) (dflt : Nat) : PageResult Element :=
  let t := effTimeout timeout dflt
  match webDriverWaitUntil clickableAt t with
  | Except.ok e =>
    { result := Except.ok e,
      log := ["Waiting for element to be clickable: " ++ locatorStr loc] }
  | Except.error ex =>
    { result := Except.error ex,
      log := ["Waiting for element to be clickable: " ++ locatorStr loc,
              "Element not clickable within " ++ toString t ++ "s: " ++ locatorStr loc] }

/-- BasePage.wait_for_element_invisible (lines 121-133): returns the truthy
wait value as true, and absorbs the TimeoutException into false after
logging - it never re-raises. -/
def waitForElementInvisible (invisibleAt : Nat → Option Unit) (loc : Locator)
    (timeout : Option Nat) (dflt : Nat) : Bool × List String :=
  let t := effTimeout timeout dflt
  match webDriverWaitUntil invisibleAt t with
  | Except.ok _ =>
    (true, ["Waiting for element to be invisible: " ++ locatorStr loc])
  | Except.error _ =>
    (false, ["Waiting for element to be invisible: " ++ locatorStr loc,
             "Element still visible after " ++ toString t ++ "s: " ++ locatorStr loc])

/-- BasePage.is_element_visible (lines 203-214): true when the visibility
wait succeeds, false when it expires; the TimeoutException is absorbed. -/
def isElementVisible (visibleAt : Nat → Option Element)
    (timeout : Option Nat) (dflt : Nat) : Bool :=
  match webDriverWaitUntil visibleAt (effTimeout timeout dflt) with
  | Except.ok _ => true
  | Except.error _ => false

/-- An error escaping a BasePage action: the re-raised TimeoutException of
the clickability wait, or the exception of the failed script click. -/
inductive PageError where
  | timeoutErr (e : TimeoutException)
  | interactionErr (msg : String)

/-- BasePage.click (base_page.py lines 151-166): wait for clickability
(propagating the TimeoutException on expiry), then try the native
element.click(); any exception there is caught and a script click on the
same handle is attempted; only a failure of that fallback propagates. -/
def BasePage.click (clickableAt : Nat → Option Element)
    (nativeClick scriptClick : Element → Except String Unit)
    (loc : Locator) (timeout : Option Nat) (dflt : Nat) : Except PageError Unit :=
  match (waitForElementClickable clickableAt loc timeout dflt).result with
  | Except.error ex => Except.error (PageError.timeoutErr ex)
  | Except.ok e =>
    match nativeClick e with
    | Except.ok _ => Except.ok ()
    | Except.error _ =>
      match scriptClick e with
      | Except.ok _ => Except.ok ()
      | Except.error m => Except.error (PageError.interactionErr m)

/-- BasePage.enter_text (base_page.py lines 168-185): wait for presence and
visibility (propagating the TimeoutException), optionally clear the field,
then send the keys; send_keys appends to the current field content.  The
returned string is the field content after the call, starting from the
given initial content. -/
def enterText (visibleAt : Nat → Option Element) (fieldContent : String)
    (loc : Locator) (text : String) (clearFirst : Bool)
    (timeout : Option Nat) (dflt : Nat) : Except TimeoutException String :=
  match (waitForElement visibleAt loc timeout dflt).result with
  | Except.error ex => Except.error ex
  | Except.ok _ =>
    Except.ok ((if clearFirst then "" else fieldContent) ++ text)

/-- Models Python str.lower(), character by character. -/
def strLower (s : String) : String := String.mk (s.data.map Char.toLower)

/-- State of a DriverFactory (driver_factory.py lines 26-39): the
constructor stores browser.lower(), the headless flag and the optional
remote URL; the driver slot starts empty. -/
structure DriverFactory where
  browser : String
  headless : Bool
  remoteUrl : Option String

/-- DriverFactory.__init__: the browser family is lower-cased on entry. -/
def mkDriverFactory (browser : String) (headless : Bool)
    (remoteUrl : Option String) : DriverFactory :=
  { browser := strLower browser, headless := headless, remoteUrl := remoteUrl }

/-- The keys of the driver_map dictionary (driver_factory.py lines 56-60). -/
def supportedBrowsers : List String := ["chrome", "firefox", "edge"]

/-- A created WebDriver session: either a local browser of a supported
family, or a remote Grid session carrying the options family that
_create_remote_driver selected (ChromeOptions for chrome, FirefoxOptions
for everything else). -/
inductive DriverSession where
  | localSession (browser : String) (headless : Bool)
  | remoteSession (url : String) (optionsFamily : String) (headless : Bool)

/-- The local path of DriverFactory.create_driver (lines 56-70): dispatch
through driver_map, raising ValueError for a family outside the map. -/
def createDriverLocal (f : DriverFactory) : Except String DriverSession :=
  if supportedBrowsers.contains f.browser then
    Except.ok (DriverSession.localSession f.browser f.headless)
  else
    Except.error ("Unsupported browser: " ++ f.browser
      ++ ". Supported browsers: chrome, firefox, edge")

/-- DriverFactory.create_driver (driver_factory.py lines 41-70): when
self.remote_url is truthy (present and non-empty) the method returns
_create_remote_driver() immediately, before the browser-family check;
only the local path validates the family against driver_map. -/
def createDriver (f : DriverFactory) : Except String DriverSession :=
  match f.remoteUrl with
  | Option.some u =>
    if u = "" then createDriverLocal f
    else Except.ok (DriverSession.remoteSession u
      (if f.browser = "chrome" then "chrome" else "firefox") f.headless)
  | Option.none => createDriverLocal f

/-- DriverFactory.quit_driver (driver_factory.py lines 162-171): a missing
driver is a no-op; otherwise the underlying quit is attempted, any
exception is logged and swallowed, and the finally block clears the driver
reference in every case.  The function is total: no outcome raises. -/
def quitDriver (driver : Option Nat) (underlyingQuit : Nat → Except String Unit) :
    Option Nat × List String :=
  match driver with
  | Option.none => (Option.none, [])
  | Option.some d =>
    match underlyingQuit d with
    | Except.ok _ => (Option.none, ["Quitting driver: " ++ toString d])
    | Except.error e =>
      (Option.none, ["Quitting driver: " ++ toString d,
                     "Error quitting driver: " ++ e])

/-- Prefix test on character lists, used to define substring containment. -/
def startsWithL : List Char → List Char → Bool
  | _, [] => true
  | [], _ :: _ => false
  | a :: as, b :: bs => a == b && startsWithL as bs

/-- Substring containment on character lists: the needle occurs starting
at some position of the haystack. -/
def containsL : List Char → List Char → Bool
  | [], needle => needle.isEmpty
  | a :: as, needle => startsWithL (a :: as) needle || containsL as needle

/-- Substring containment on strings, used to state that a log line or an
exception payload mentions a locator. -/
def strContains (hay needle : String) : Bool := containsL hay.data needle.data

/-- Appending string data distributes over string append. -/
theorem strData_append (a b : String) : (a ++ b).data = a.data ++ b.data := rfl

/-- A list is a prefix of itself extended by anything. -/
theorem startsWithL_self_append (y z : List Char) : startsWithL (y ++ z) y = true := by
  induction y with
  | nil => simp [startsWithL]
  | cons c cs ih => simp [startsWithL, ih]

/-- The empty needle occurs in every haystack. -/
theorem containsL_nil_needle (xs : List Char) : containsL xs [] = true := by
  cases xs with
  | nil => rfl
  | cons a as => simp [containsL, startsWithL]

/-- Containment is preserved by extending the haystack on the left. -/
theorem containsL_append_left (x rest needle : List Char)
    (h : containsL rest needle = true) : containsL (x ++ rest) needle = true := by
  induction x with
  | nil => simpa using h
  | cons a as ih => simp [containsL, ih]

/-- A list occurs in itself extended on the right. -/
theorem containsL_self_append (v z : List Char) : containsL (v ++ z) v = true := by
  cases v with
  | nil => simpa using containsL_nil_needle z
  | cons c cs =>
    have h := startsWithL_self_append (c :: cs) z
    rw [List.cons_append] at h
    simp [containsL, h]

/-- Every log line built as a prefix followed by the rendered locator
mentions the locator value as a substring. -/
theorem logLineMentionsValue (pre : String) (loc : Locator) :
    strContains (pre ++ locatorStr loc) loc.value = true := by
  unfold strContains locatorStr
  simp only [strData_append, List.append_assoc]
  exact containsL_append_left _ _ _ (containsL_append_left _ _ _
    (containsL_append_left _ _ _ (containsL_append_left _ _ _
      (containsL_self_append _ _))))

/-- Lookup succeeding in a list still succeeds after appending entries. -/
theorem lookupAssoc_append_left {A : Type} (l l2 : List (String × A)) (k : String) (v : A)
    (h : lookupAssoc l k = Option.some v) :
    lookupAssoc (l ++ l2) k = Option.some v := by
  induction l with
  | nil => simp [lookupAssoc] at h
  | cons p rest ih =>
    obtain ⟨k1, v1⟩ := p
    by_cases hk : k1 = k
    · simpa [lookupAssoc, hk] using h
    · rw [List.cons_append, lookupAssoc, if_neg hk]
      rw [lookupAssoc, if_neg hk] at h
      exact ih h

/-- Looking up the key just assigned returns the assigned value. -/
theorem lookupAssoc_setAssoc_self {A : Type} (l : List (String × A)) (k : String) (v : A) :
    lookupAssoc (setAssoc l k v) k = Option.some v := by
  induction l with
  | nil => simp [setAssoc, lookupAssoc]
  | cons p rest ih =>
    obtain ⟨k1, v1⟩ := p
    by_cases hk : k1 = k
    · simp [setAssoc, hk, lookupAssoc]
    · simp [setAssoc, hk, lookupAssoc, ih]

/-- Assigning one key leaves lookups of every other key unchanged. -/
theorem lookupAssoc_setAssoc_ne {A : Type} (l : List (String × A)) (k k' : String) (v : A)
    (hne : k' ≠ k) : lookupAssoc (setAssoc l k v) k' = lookupAssoc l k' := by
  induction l with
  | nil => simp [setAssoc, lookupAssoc, Ne.symm hne]
  | cons p rest ih =>
    obtain ⟨k1, v1⟩ := p
    by_cases hk : k1 = k
    · subst hk
      simp [setAssoc, lookupAssoc, Ne.symm hne]
    · simp only [setAssoc, if_neg hk, lookupAssoc]
      by_cases hk' : k1 = k'
      · simp [hk']
      · simp [hk', ih]

/-- Merging default keys into a section never changes a key the section
already defines: _set_defaults only appends missing keys. -/
theorem mergeSection_preserves (sec vals : List (String × Value)) (fld : String) (v : Value)
    (h : lookupAssoc sec fld = Option.some v) :
    lookupAssoc (mergeSection sec vals) fld = Option.some v := by
  induction vals generalizing sec with
  | nil => exact h
  | cons kv rest ih =>
    rw [mergeSection, List.foldl_cons]
    by_cases hc : (lookupAssoc sec kv.1).isSome
    · rw [if_pos hc]; exact ih sec h
    · rw [if_neg hc]; exact ih (sec ++ [kv]) (lookupAssoc_append_left sec [kv] fld v h)

/-- A value present in the loaded configuration file survives
_set_defaults: the merged configuration still maps the same section and
field to the loaded value (the file wins over the built-in default). -/
theorem mergeDefaults_preserves (ds : List (String × List (String × Value)))
    (loaded cfg : List (String × Value)) (sec fld : String)
    (secd : List (String × Value)) (v : Value)
    (hm : mergeDefaults loaded ds = Option.some cfg)
    (h1 : lookupAssoc loaded sec = Option.some (Value.dict secd))
    (h2 : lookupAssoc secd fld = Option.some v) :
    ∃ secd2, lookupAssoc cfg sec = Option.some (Value.dict secd2) ∧
      lookupAssoc secd2 fld = Option.some v := by
  induction ds generalizing loaded secd with
  | nil =>
    rw [mergeDefaults] at hm
    cases hm
    exact ⟨secd, h1, h2⟩
  | cons p rest ih =>
    obtain ⟨s, vals⟩ := p
    rw [mergeDefaults] at hm
    split at hm
    · exact ih _ secd hm (lookupAssoc_append_left _ _ _ _ h1) h2
    · next sd0 hls =>
      by_cases hs : s = sec
      · subst hs
        rw [h1] at hls
        obtain rfl : secd = sd0 := by
          injection hls with h3
          injection h3
        exact ih _ (mergeSection secd vals) hm
          (lookupAssoc_setAssoc_self _ _ _)
          (mergeSection_preserves secd vals fld v h2)
      · refine ih _ secd hm ?_ h2
        rw [lookupAssoc_setAssoc_ne _ _ _ _ (fun he => hs he.symm)]
        exact h1
    · simp at hm

/-- Claim C1 (code bug evidence): with the environment variable
BROWSER_TYPE set to edge, a runtime ConfigManager.set of browser.type to
firefox is recorded in the in-memory dictionary, yet the subsequent
ConfigManager.get returns the environment value edge: get consults the
environment before the runtime override, contradicting the class
docstring Priority: Runtime, then Environment Variables, then Config
File, then Defaults. -/
theorem C1_env_shadows_runtime_set :
    ((mergeDefaults [] defaultSections).bind fun c =>
      (ConfigManager.set { config := c, env := [("BROWSER_TYPE", "edge")] }
          "browser.type" (Value.str "firefox")).map fun st =>
        ConfigManager.get st "browser.type" Value.none)
      = Option.some (Value.str "edge")
    ∧ ((mergeDefaults [] defaultSections).bind fun c =>
      (ConfigManager.set { config := c, env := [("BROWSER_TYPE", "edge")] }
          "browser.type" (Value.str "firefox")).map fun st =>
        lookupKeys (Value.dict st.config) ["browser", "type"])
      = Option.some (Option.some (Value.str "firefox")) :=
  ⟨rfl, rfl⟩

/-- Claim C4: configuration precedence of ConfigManager.get on an
initialised state (loaded file merged with the built-in defaults): the
environment value wins when the corresponding variable is set; with no
environment variable, a value present in the loaded file wins over the
built-in default for that key; when the key resolves nowhere, the
caller-supplied default argument is returned. -/
theorem C4_config_precedence
    (envp : List (String × String)) (loaded cfg : List (String × Value))
    (k sec fld : String) (dflt : Value) (s : String) (v : Value)
    (secd : List (String × Value))
    (hm : mergeDefaults loaded defaultSections = Option.some cfg)
    (hk : splitKey k = [sec, fld]) :
    (lookupAssoc envp (toEnvKey k) = Option.some s →
      ConfigManager.get { config := cfg, env := envp } k dflt = Value.str s)
    ∧ (lookupAssoc envp (toEnvKey k) = Option.none →
      lookupAssoc loaded sec = Option.some (Value.dict secd) →
      lookupAssoc secd fld = Option.some v →
      ConfigManager.get { config := cfg, env := envp } k dflt = v)
    ∧ (lookupAssoc envp (toEnvKey k) = Option.none →
      lookupKeys (Value.dict cfg) [sec, fld] = Option.none →
      ConfigManager.get { config := cfg, env := envp } k dflt = dflt) := by
  refine ⟨?_, ?_, ?_⟩
  · intro he
    simp [ConfigManager.get, he]
  · intro he h1 h2
    obtain ⟨secd2, hs1, hs2⟩ :=
      mergeDefaults_preserves defaultSections loaded cfg sec fld secd v hm h1 h2
    simp [ConfigManager.get, he, hk, lookupKeys, hs1, hs2]
  · intro he hn
    simp [ConfigManager.get, he, hk, hn]

/-- A loaded configuration file assigning firefox to browser.type, used to
instantiate the precedence theorem. -/
def loadedW : List (String × Value) :=
  [("browser", Value.dict [("type", Value.str "firefox")])]

/-- The configuration obtained by merging loadedW with the built-in
defaults, as ConfigManager initialisation does. -/
def cfgW : List (String × Value) :=
  (mergeDefaults loadedW defaultSections).getD []

/-- Witness for C4: on the concrete merged configuration cfgW, get
returns the environment value edge when BROWSER_TYPE is set, the file
value firefox (not the built-in default chrome) when it is not, and the
caller default for a key no source defines. -/
theorem C4_config_precedence_witness :
    ConfigManager.get { config := cfgW, env := [("BROWSER_TYPE", "edge")] }
      "browser.type" Value.none = Value.str "edge"
    ∧ ConfigManager.get { config := cfgW, env := [] }
      "browser.type" Value.none = Value.str "firefox"
    ∧ ConfigManager.get { config := cfgW, env := [] }
      "browser.propulsion" (Value.str "fallback") = Value.str "fallback" := by
  have hm : mergeDefaults loadedW defaultSections = Option.some cfgW := rfl
  have h1 := C4_config_precedence [("BROWSER_TYPE", "edge")] loadedW cfgW
    "browser.type" "browser" "type" Value.none "edge" Value.none [] hm rfl
  have h2 := C4_config_precedence [] loadedW cfgW
    "browser.type" "browser" "type" Value.none ""
    (Value.str "firefox") [("type", Value.str "firefox")] hm rfl
  have h3 := C4_config_precedence [] loadedW cfgW
    "browser.propulsion" "browser" "propulsion" (Value.str "fallback") ""
    Value.none [] hm rfl
  exact ⟨h1.1 rfl, h2.2.1 rfl rfl rfl, h3.2.2 rfl rfl⟩

/-- Counterexample to claim C10 as stated: an environment variable may be
set to the empty string, and then ConfigManager.headless returns the raw
empty string, which is not a non-empty (truthy) string. -/
theorem C10_empty_env_override_is_empty :
    ConfigManager.headless { config := [], env := [("BROWSER_HEADLESS", "")] }
      = Value.str ""
    ∧ pythonTruthy
        (ConfigManager.headless { config := [], env := [("BROWSER_HEADLESS", "")] })
      = false :=
  ⟨rfl, rfl⟩

/-- Claim C10 as amended: whenever the environment-variable form of a
dotted key is set, ConfigManager.get returns the environment value as a
raw string, never converted to the type of the stored or default value;
in particular the typed accessor headless returns that raw string, which
is truthy whenever the variable value is non-empty, including the string
false. -/
theorem C10_env_override_raw_string
    (envp : List (String × String)) (cfg : List (String × Value))
    (k : String) (dflt : Value) (s : String)
    (h : lookupAssoc envp (toEnvKey k) = Option.some s) :
    ConfigManager.get { config := cfg, env := envp } k dflt = Value.str s
    ∧ (k = "browser.headless" →
        ConfigManager.headless { config := cfg, env := envp } = Value.str s)
    ∧ (s ≠ "" → pythonTruthy (Value.str s) = true) := by
  refine ⟨?_, ?_, ?_⟩
  · simp [ConfigManager.get, h]
  · intro hk
    subst hk
    simp [ConfigManager.headless, ConfigManager.get, h]
  · intro hs
    simp [pythonTruthy, hs]

/-- Witness for C10 as amended: BROWSER_HEADLESS set to the string false
makes get and headless return the raw, truthy string false instead of a
boolean. -/
theorem C10_env_override_raw_string_witness :
    ConfigManager.get { config := [], env := [("BROWSER_HEADLESS", "false")] }
      "browser.headless" (Value.bool false) = Value.str "false"
    ∧ ConfigManager.headless { config := [], env := [("BROWSER_HEADLESS", "false")] }
      = Value.str "false"
    ∧ pythonTruthy (Value.str "false") = true := by
  have h := C10_env_override_raw_string [("BROWSER_HEADLESS", "false")] []
    "browser.headless" (Value.bool false) "false" rfl
  exact ⟨h.1, h.2.1 rfl, h.2.2 (by decide)⟩

/-- Counterexample to claim C2 as stated: when wait_for_element expires,
the raised failure is the library TimeoutException re-raised unchanged,
whose payload (message) is empty and therefore names neither the locator
nor the condition; the locator appears only in the log. -/
theorem C2_timeout_payload_lacks_locator :
    (waitForElement (fun _ => Option.none)
        { strategy := "id", value := "login-button" } (Option.some 2) 10).result
      = Except.error { msg := "" }
    ∧ strContains "" "login-button" = false
    ∧ strContains "" "visibility_of_element_located" = false :=
  ⟨rfl, rfl, rfl⟩

/-- Claim C2 as amended: whenever a wait-based primitive
(wait_for_element, wait_for_elements, wait_for_element_clickable)
expires, it raises a typed TimeoutException - the library exception
re-raised unchanged, with the default empty message - and logs an error
entry that includes the locator; the locator and operation name live in
the log rather than in the exception payload. -/
theorem C2_timeout_error_typed_and_logged
    (visibleAt clickableAt : Nat → Option Element) (elemsAt : Nat → List Element)
    (loc : Locator) (tArg : Option Nat) (dflt : Nat)
    (hv : pollFirst visibleAt 0 (effTimeout tArg dflt) = Option.none)
    (he : pollFirst
        (fun n => if elemsAt n = [] then Option.none else Option.some (elemsAt n))
        0 (effTimeout tArg dflt) = Option.none)
    (hc : pollFirst clickableAt 0 (effTimeout tArg dflt) = Option.none) :
    ((waitForElement visibleAt loc tArg dflt).result = Except.error { msg := "" }
      ∧ ∃ entry, entry ∈ (waitForElement visibleAt loc tArg dflt).log
          ∧ strContains entry loc.value = true)
    ∧ ((waitForElements elemsAt loc tArg dflt).result = Except.error { msg := "" }
      ∧ ∃ entry, entry ∈ (waitForElements elemsAt loc tArg dflt).log
          ∧ strContains entry loc.value = true)
    ∧ ((waitForElementClickable clickableAt loc tArg dflt).result
        = Except.error { msg := "" }
      ∧ ∃ entry, entry ∈ (waitForElementClickable clickableAt loc tArg dflt).log
          ∧ strContains entry loc.value = true) := by
  refine ⟨⟨?_, ?_⟩, ⟨?_, ?_⟩, ⟨?_, ?_⟩⟩
  · simp [waitForElement, webDriverWaitUntil, hv]
  · refine ⟨"Element not found within " ++ toString (effTimeout tArg dflt)
        ++ "s: " ++ locatorStr loc, ?_, logLineMentionsValue _ loc⟩
    simp [waitForElement, webDriverWaitUntil, hv]
  · simp [waitForElements, webDriverWaitUntil, he]
  · refine ⟨"Elements not found within " ++ toString (effTimeout tArg dflt)
        ++ "s: " ++ locatorStr loc, ?_, logLineMentionsValue _ loc⟩
    simp [waitForElements, webDriverWaitUntil, he]
  · simp [waitForElementClickable, webDriverWaitUntil, hc]
  · refine ⟨"Element not clickable within " ++ toString (effTimeout tArg dflt)
        ++ "s: " ++ locatorStr loc, ?_, logLineMentionsValue _ loc⟩
    simp [waitForElementClickable, webDriverWaitUntil, hc]

/-- Witness for C2 as amended: with a condition that never becomes true
and a one-second timeout, all three wait primitives re-raise the typed
TimeoutException with the empty library message. -/
theorem C2_timeout_error_typed_and_logged_witness :
    pollFirst (fun _ => (Option.none : Option Element)) 0
        (effTimeout (Option.some 1) 10) = Option.none
    ∧ (waitForElement (fun _ => Option.none)
        { strategy := "id", value := "user-name" } (Option.some 1) 10).result
      = Except.error { msg := "" }
    ∧ (waitForElements (fun _ => [])
        { strategy := "id", value := "user-name" } (Option.some 1) 10).result
      = Except.error { msg := "" }
    ∧ (waitForElementClickable (fun _ => Option.none)
        { strategy := "id", value := "user-name" } (Option.some 1) 10).result
      = Except.error { msg := "" } := by
  have h := C2_timeout_error_typed_and_logged (fun _ => Option.none)
    (fun _ => Option.none) (fun _ => [])
    { strategy := "id", value := "user-name" } (Option.some 1) 10 rfl rfl rfl
  exact ⟨rfl, h.1.1, h.2.1.1, h.2.2.1⟩

/-- Claim C5: when the clickability wait succeeds, click completes without
raising exactly when the native click or the script-click fallback
succeeds; only when both fail does click raise, and then with the
exception of the failed script click. -/
theorem C5_click_fallback (clickableAt : Nat → Option Element) (e : Element)
    (nativeClick scriptClick : Element → Except String Unit)
    (loc : Locator) (tArg : Option Nat) (dflt : Nat) (m : String)
    (hw : pollFirst clickableAt 0 (effTimeout tArg dflt) = Option.some e)
    (hn : nativeClick e = Except.error m) :
    (scriptClick e = Except.ok () →
      BasePage.click clickableAt nativeClick scriptClick loc tArg dflt = Except.ok ())
    ∧ (∀ m2, scriptClick e = Except.error m2 →
      BasePage.click clickableAt nativeClick scriptClick loc tArg dflt
        = Except.error (PageError.interactionErr m2))
    ∧ (∀ nc : Element → Except String Unit, nc e = Except.ok () →
      BasePage.click clickableAt nc scriptClick loc tArg dflt = Except.ok ()) := by
  have hwc : (waitForElementClickable clickableAt loc tArg dflt).result = Except.ok e := by
    simp [waitForElementClickable, webDriverWaitUntil, hw]
  refine ⟨?_, ?_, ?_⟩
  · intro hs
    simp [BasePage.click, hwc, hn, hs]
  · intro m2 hs
    simp [BasePage.click, hwc, hn, hs]
  · intro nc hnc
    simp [BasePage.click, hwc, hnc]

/-- Witness for C5: a native click that raises ElementClickIntercepted is
rescued by a successful script click; when the script click also raises,
the click propagates that second failure. -/
theorem C5_click_fallback_witness :
    BasePage.click (fun _ => Option.some 1)
      (fun _ => Except.error "ElementClickIntercepted") (fun _ => Except.ok ())
      { strategy := "id", value := "login-button" } Option.none 10 = Except.ok ()
    ∧ BasePage.click (fun _ => Option.some 1)
      (fun _ => Except.error "ElementClickIntercepted")
      (fun _ => Except.error "JavascriptException")
      { strategy := "id", value := "login-button" } Option.none 10
      = Except.error (PageError.interactionErr "JavascriptException") := by
  have h1 := C5_click_fallback (fun _ => Option.some 1) 1
    (fun _ => Except.error "ElementClickIntercepted") (fun _ => Except.ok ())
    { strategy := "id", value := "login-button" } Option.none 10
    "ElementClickIntercepted" rfl rfl
  have h2 := C5_click_fallback (fun _ => Option.some 1) 1
    (fun _ => Except.error "ElementClickIntercepted")
    (fun _ => Except.error "JavascriptException")
    { strategy := "id", value := "login-button" } Option.none 10
    "ElementClickIntercepted" rfl rfl
  exact ⟨h1.1 rfl, h2.2.1 "JavascriptException" rfl⟩

/-- Claim C6: the boolean-returning predicates absorb timeout expiry into
false instead of raising: when the waited condition never becomes true
within the effective timeout, is_element_visible returns false and
wait_for_element_invisible returns false (both are total functions into
Bool, so no exception can escape them). -/
theorem C6_boolean_waits_return_false
    (visibleAt : Nat → Option Element) (invisibleAt : Nat → Option Unit)
    (loc : Locator) (tArg : Option Nat) (dflt : Nat)
    (hv : pollFirst visibleAt 0 (effTimeout tArg dflt) = Option.none)
    (hi : pollFirst invisibleAt 0 (effTimeout tArg dflt) = Option.none) :
    isElementVisible visibleAt tArg dflt = false
    ∧ (waitForElementInvisible invisibleAt loc tArg dflt).fst = false := by
  constructor
  · simp [isElementVisible, webDriverWaitUntil, hv]
  · simp [waitForElementInvisible, webDriverWaitUntil, hi]

/-- Witness for C6: an element that never appears and an element that
never disappears make the predicates return false on a concrete timeout. -/
theorem C6_boolean_waits_return_false_witness :
    pollFirst (fun _ => (Option.none : Option Element)) 0
        (effTimeout Option.none 3) = Option.none
    ∧ isElementVisible (fun _ => Option.none) Option.none 3 = false
    ∧ (waitForElementInvisible (fun _ => Option.none)
        { strategy := "id", value := "spinner" } Option.none 3).fst = false := by
  have h := C6_boolean_waits_return_false (fun _ => Option.none)
    (fun _ => Option.none) { strategy := "id", value := "spinner" }
    Option.none 3 rfl rfl
  exact ⟨rfl, h.1, h.2⟩

/-- Counterexample to claim C7 as stated: a supplied per-call timeout of 0
is not used as the bound.  Python evaluates timeout or self.timeout, and 0
is falsy, so the session default (10) is used instead: the wait succeeds
on an element that only appears at time 5, while a genuine 0-second bound
would have expired. -/
theorem C7_zero_timeout_uses_default :
    effTimeout (Option.some 0) 10 = 10
    ∧ (waitForElement (fun t => if 5 ≤ t then Option.some 7 else Option.none)
        { strategy := "id", value := "inventory" } (Option.some 0) 10).result
      = Except.ok 7
    ∧ webDriverWaitUntil
        (fun t => if 5 ≤ t then Option.some (7 : Element) else Option.none) 0
      = Except.error { msg := "" } :=
  ⟨rfl, rfl, rfl⟩

/-- Claim C7 as amended: a supplied non-zero per-call timeout is used as
the bound (the session default is then irrelevant), and the session
default is used both when no per-call value is supplied and when the
supplied value is 0, which Python treats as falsy. -/
theorem C7_timeout_override_semantics
    (visibleAt : Nat → Option Element) (loc : Locator) (n d d2 : Nat)
    (h : n ≠ 0) :
    effTimeout (Option.some n) d = n
    ∧ effTimeout Option.none d = d
    ∧ effTimeout (Option.some 0) d = d
    ∧ waitForElement visibleAt loc (Option.some n) d
      = waitForElement visibleAt loc (Option.some n) d2 := by
  refine ⟨?_, rfl, rfl, ?_⟩
  · simp [effTimeout, h]
  · simp [waitForElement, effTimeout, h]

/-- Witness for C7 as amended: a supplied timeout of 3 is the bound
whatever the default is; omitted and zero timeouts fall back to the
default 10. -/
theorem C7_timeout_override_semantics_witness :
    effTimeout (Option.some 3) 10 = 3
    ∧ effTimeout Option.none 10 = 10
    ∧ effTimeout (Option.some 0) 10 = 10
    ∧ waitForElement (fun _ => Option.none) { strategy := "id", value := "cart" }
        (Option.some 3) 10
      = waitForElement (fun _ => Option.none) { strategy := "id", value := "cart" }
        (Option.some 3) 0 := by
  have h := C7_timeout_override_semantics (fun _ => Option.none)
    { strategy := "id", value := "cart" } 3 10 0 (by decide)
  exact h

/-- Claim C9: when the presence-and-visibility wait succeeds, enter_text
with clear_first true leaves the field containing exactly the new text,
and with clear_first false appends the new text to the initial content. -/
theorem C9_enter_text_content
    (visibleAt : Nat → Option Element) (e : Element) (s text : String)
    (loc : Locator) (tArg : Option Nat) (dflt : Nat)
    (hw : pollFirst visibleAt 0 (effTimeout tArg dflt) = Option.some e) :
    enterText visibleAt s loc text true tArg dflt = Except.ok text
    ∧ enterText visibleAt s loc text false tArg dflt = Except.ok (s ++ text) := by
  have hres : (waitForElement visibleAt loc tArg dflt).result = Except.ok e := by
    simp [waitForElement, webDriverWaitUntil, hw]
  constructor
  · simp [enterText, hres]
  · simp [enterText, hres]

/-- Witness for C9: a field holding old receives new: clearing first
leaves new, not clearing leaves oldnew. -/
theorem C9_enter_text_content_witness :
    enterText (fun _ => Option.some 2) "old"
      { strategy := "id", value := "password" } "new" true Option.none 5
      = Except.ok "new"
    ∧ enterText (fun _ => Option.some 2) "old"
      { strategy := "id", value := "password" } "new" false Option.none 5
      = Except.ok "oldnew" := by
  have h := C9_enter_text_content (fun _ => Option.some 2) 2 "old" "new"
    { strategy := "id", value := "password" } Option.none 5 rfl
  exact ⟨h.1, h.2⟩

/-- Counterexample to claim C3 as stated: with a remote endpoint
configured, create_driver returns a remote session for the unsupported
family safari instead of failing - the remote path returns before the
browser-family validation; only the local path raises the
unsupported-browser ValueError. -/
theorem C3_remote_skips_validation :
    createDriver (mkDriverFactory "Safari" false (Option.some "http://grid:4444/wd/hub"))
      = Except.ok (DriverSession.remoteSession "http://grid:4444/wd/hub" "firefox" false)
    ∧ createDriver (mkDriverFactory "Safari" false Option.none)
      = Except.error "Unsupported browser: safari. Supported browsers: chrome, firefox, edge" :=
  ⟨rfl, rfl⟩

/-- Claim C3 as amended: for a browser family outside chrome, firefox,
edge (after lower-casing), create_driver raises the unsupported-browser
ValueError in the local configuration (no remote endpoint); with a
non-empty remote endpoint the validation is skipped and a remote session
is created, with Firefox options for every non-chrome family. -/
theorem C3_unsupported_browser_local_only (b : String) (hl : Bool)
    (hb : supportedBrowsers.contains (strLower b) = false) :
    createDriver (mkDriverFactory b hl Option.none)
      = Except.error ("Unsupported browser: " ++ strLower b
          ++ ". Supported browsers: chrome, firefox, edge")
    ∧ (∀ u : String, u ≠ "" →
        createDriver (mkDriverFactory b hl (Option.some u))
          = Except.ok (DriverSession.remoteSession u
              (if strLower b = "chrome" then "chrome" else "firefox") hl)) := by
  constructor
  · have hb2 : strLower b ∉ supportedBrowsers := by simpa using hb
    simp [createDriver, mkDriverFactory, createDriverLocal, hb2]
  · intro u hu
    simp [createDriver, mkDriverFactory, hu]

/-- Witness for C3 as amended: safari is rejected locally but silently
accepted (with Firefox options) when a grid URL is configured. -/
theorem C3_unsupported_browser_local_only_witness :
    supportedBrowsers.contains (strLower "Safari") = false
    ∧ createDriver (mkDriverFactory "Safari" true Option.none)
      = Except.error "Unsupported browser: safari. Supported browsers: chrome, firefox, edge"
    ∧ createDriver (mkDriverFactory "Safari" true (Option.some "http://grid:4444"))
      = Except.ok (DriverSession.remoteSession "http://grid:4444" "firefox" true) := by
  have h := C3_unsupported_browser_local_only "Safari" true rfl
  exact ⟨rfl, h.1, h.2 "http://grid:4444" (by decide)⟩

/-- Claim C8: quit_driver is idempotent and never raises: it is a total
function, quitting with no active driver is a no-op, the driver reference
is cleared in every case (the finally block), and a second call is always
a no-op - whatever the underlying quit does, including raising. -/
theorem C8_quit_driver_idempotent (driver : Option Nat)
    (uq : Nat → Except String Unit) :
    (quitDriver driver uq).fst = Option.none
    ∧ quitDriver Option.none uq = (Option.none, [])
    ∧ quitDriver (quitDriver driver uq).fst uq = (Option.none, []) := by
  refine ⟨?_, rfl, ?_⟩
  · cases driver with
    | none => rfl
    | some d =>
      cases h : uq d with
      | ok v => simp [quitDriver, h]
      | error e => simp [quitDriver, h]
  · cases driver with
    | none => rfl
    | some d =>
      cases h : uq d with
      | ok v => simp [quitDriver, h]
      | error e => simp [quitDriver, h]
